import Mathlib

/-!
Shallow embedding of the content-generation adapter layer of the
gemini-cli-openrouter repository, together with theorems settling the
frozen claims about it.

The embedding follows the TypeScript sources:
- packages/core/src/core/contentGenerator.ts (the table-based model mapper
  mapGeminiModelToOpenRouter and an earlier revision of the resolver);
- the current contentGenerator revision holding the
  OpenRouterContentGenerator adapter class, createContentGeneratorConfig
  and createContentGenerator;
- the non-interactive auth validator holding getAuthTypeFromEnv and
  validateNonInteractiveAuth.

Machine-level JavaScript details (prototype chains, floating point) are
below the abstraction level of this embedding; strings are Lean strings,
JS undefined is Option.none, truthiness of an environment string is
nonemptiness, and the HTTP transport is an explicit function argument so
that the outbound request log is part of the result.
-/

set_option autoImplicit false

/-! ## String helpers (structural versions of the JS operations used) -/

/-- Boolean test that the first list of characters occurs at the head of
the second one. -/
def charsStartWith : List Char → List Char → Bool
  | [], _ => true
  | _ :: _, [] => false
  | a :: as, b :: bs => a == b && charsStartWith as bs

/-- Boolean substring search on character lists, used to embed the
JavaScript String.prototype.includes test. -/
def charsHaveSub : List Char → List Char → Bool
  | [], sub => sub.isEmpty
  | c :: rest, sub => charsStartWith sub (c :: rest) || charsHaveSub rest sub

/-- Embedding of the JavaScript test baseUrl.includes(sub). -/
def strIncludes (s sub : String) : Bool :=
  charsHaveSub s.data sub.data

/-- Remove the first occurrence of pat, character-list worker. -/
def replaceFirstAux : List Char → List Char → List Char
  | [], _ => []
  | c :: rest, pat =>
    if charsStartWith pat (c :: rest) then List.drop pat.length (c :: rest)
    else c :: replaceFirstAux rest pat

/-- Embedding of the JavaScript call model.replace(pat, empty string),
which removes only the first occurrence of the pattern. -/
def replaceFirst (s pat : String) : String :=
  String.mk (replaceFirstAux s.data pat.data)

/-! ## Model identifier mapper (contentGenerator.ts) -/

/-- The static lookup table of mapGeminiModelToOpenRouter, verbatim from
contentGenerator.ts. -/
def modelMap : List (String × String) :=
  [ ("gemini-2.5-pro", "google/gemini-2.5-pro"),
    ("gemini-2.5-flash", "google/gemini-2.5-flash"),
    ("gemini-2.5-pro-preview", "google/gemini-2.5-pro-preview"),
    ("gemini-2.5-flash-preview", "google/gemini-2.5-flash-preview"),
    ("gemini-2.0-flash-thinking-exp", "google/gemini-2.0-flash-thinking-exp"),
    ("gemini-2.0-flash-exp", "google/gemini-2.0-flash-exp"),
    ("gemini-pro", "google/gemini-pro"),
    ("gemini-pro-vision", "google/gemini-pro-vision"),
    ("gemini-flash-1.5", "google/gemini-flash-1.5"),
    ("gemini-1.5-pro", "google/gemini-pro-1.5"),
    ("gemini-1.5-flash", "google/gemini-flash-1.5") ]

/-- Embedding of mapGeminiModelToOpenRouter: table lookup, with the
JavaScript truthiness fallback of the expression
modelMap[model] OR-ELSE google/ plus model. -/
def mapGeminiModelToOpenRouter (model : String) : String :=
  match modelMap.lookup model with
  | some mapped => if mapped = "" then "google/" ++ model else mapped
  | none => "google/" ++ model

/-! ## Auth types and environment -/

/-- Embedding of the AuthType enumeration of the current contentGenerator
revision. -/
inductive AuthType where
  | LOGIN_WITH_GOOGLE
  | USE_GEMINI
  | USE_VERTEX_AI
  | CLOUD_SHELL
  | USE_OPENROUTER
deriving DecidableEq, Repr

/-- The process environment variables the resolver and the auth detector
read; a missing variable is none. -/
structure Env where
  GEMINI_API_KEY : Option String := none
  GOOGLE_API_KEY : Option String := none
  GOOGLE_CLOUD_PROJECT : Option String := none
  GOOGLE_CLOUD_LOCATION : Option String := none
  OPENROUTER_API_KEY : Option String := none
  OPENROUTER_BASE_URL : Option String := none
  GOOGLE_GENAI_USE_GCA : Option String := none
  GOOGLE_GENAI_USE_VERTEXAI : Option String := none

/-- Embedding of the idiom process.env[name] OR-ELSE undefined: an empty
string is falsy in JavaScript and collapses to undefined. -/
def envVal : Option String → Option String
  | none => none
  | some s => if s = "" then none else some s

/-- JavaScript truthiness of an environment variable read directly:
present and nonempty. -/
def truthyEnv : Option String → Bool
  | none => false
  | some s => !(s == "")

/-! ## createContentGeneratorConfig (current revision) -/

/-- Embedding of the ContentGeneratorConfig record of the current
contentGenerator revision. -/
structure ContentGeneratorConfig where
  apiKey : Option String := none
  vertexai : Option Bool := none
  authType : Option AuthType := none
  proxy : Option String := none
  baseUrl : Option String := none
deriving DecidableEq, Repr

/-- Embedding of createContentGeneratorConfig from the current
contentGenerator revision: reads the environment, then attaches per-mode
fields when the mode requirements are met, otherwise returns the bare
configuration unchanged. -/
def createContentGeneratorConfig (env : Env) (proxy : Option String)
    (authType : Option AuthType) : ContentGeneratorConfig :=
  let geminiApiKey := envVal env.GEMINI_API_KEY
  let googleApiKey := envVal env.GOOGLE_API_KEY
  let googleCloudProject := envVal env.GOOGLE_CLOUD_PROJECT
  let googleCloudLocation := envVal env.GOOGLE_CLOUD_LOCATION
  let openRouterApiKey := envVal env.OPENROUTER_API_KEY
  let openRouterBaseUrl :=
    (envVal env.OPENROUTER_BASE_URL).getD "https://openrouter.ai/api/v1"
  let base : ContentGeneratorConfig := { authType := authType, proxy := proxy }
  if authType = some AuthType.LOGIN_WITH_GOOGLE ∨ authType = some AuthType.CLOUD_SHELL then
    base
  else if authType = some AuthType.USE_GEMINI ∧ geminiApiKey.isSome = true then
    { base with apiKey := geminiApiKey, vertexai := some false }
  else if authType = some AuthType.USE_VERTEX_AI ∧
      (googleApiKey.isSome = true ∨
        (googleCloudProject.isSome = true ∧ googleCloudLocation.isSome = true)) then
    { base with apiKey := googleApiKey, vertexai := some true }
  else if authType = some AuthType.USE_OPENROUTER ∧ openRouterApiKey.isSome = true then
    { base with apiKey := openRouterApiKey, baseUrl := some openRouterBaseUrl }
  else
    base

/-! ## Generator factory (current revision) -/

/-- The concrete client the factory selects; every successful branch of
the source wraps its client in LoggingContentGenerator before returning,
so a value of this type denotes the wrapped client. -/
inductive ContentGenerator where
  | codeAssist
  | googleGenAI (apiKey : Option String) (vertexai : Option Bool)
  | openRouter (apiKey : Option String) (baseUrl : Option String)
deriving DecidableEq, Repr

/-- Embedding of createContentGenerator from the current contentGenerator
revision: dispatch on the configured auth type; an unrecognized type is
an error. -/
def createContentGenerator (config : ContentGeneratorConfig) :
    Except String ContentGenerator :=
  if config.authType = some AuthType.LOGIN_WITH_GOOGLE ∨
      config.authType = some AuthType.CLOUD_SHELL then
    Except.ok ContentGenerator.codeAssist
  else if config.authType = some AuthType.USE_GEMINI ∨
      config.authType = some AuthType.USE_VERTEX_AI then
    Except.ok (ContentGenerator.googleGenAI
      (if config.apiKey = some "" then none else config.apiKey) config.vertexai)
  else if config.authType = some AuthType.USE_OPENROUTER then
    Except.ok (ContentGenerator.openRouter config.apiKey config.baseUrl)
  else
    Except.error "Error creating contentGenerator: Unsupported authType"

/-! ## Canonical request and response data (OpenRouterContentGenerator) -/

/-- A typed part of a content entry; only the text field is consumed by
the adapter. -/
structure TextPart where
  text : Option String
deriving DecidableEq, Repr

/-- One entry of the canonical contents sequence; role and parts may be
absent, matching the loosely typed source. -/
structure ContentEntry where
  role : Option String := none
  parts : Option (List TextPart) := none
deriving DecidableEq, Repr

/-- A flat chat message in the OpenAI-compatible wire shape. -/
structure Message where
  role : String
  content : String
deriving DecidableEq, Repr

/-- Finish reasons the adapter produces; the source enumeration has more
members, but the conversion emits only these two. -/
inductive FinishReason where
  | STOP
  | OTHER
deriving DecidableEq, Repr

/-- The content of one response candidate. -/
structure CandidateContent where
  role : String
  parts : List TextPart
deriving DecidableEq, Repr

/-- One canonical response candidate. -/
structure Candidate where
  content : CandidateContent
  finishReason : FinishReason
  index : Nat
deriving DecidableEq, Repr

/-- Canonical usage metadata. -/
structure UsageMetadata where
  promptTokenCount : Int
  candidatesTokenCount : Int
  totalTokenCount : Int
deriving DecidableEq, Repr

/-- The canonical GenerateContentResponse the adapter builds. -/
structure GenerateContentResponse where
  candidates : List Candidate
  usageMetadata : UsageMetadata
deriving DecidableEq, Repr

/-! ## Upstream payload (OpenAI-compatible response, parsed) -/

/-- The message object of one upstream choice. -/
structure ChoiceMessage where
  content : String
deriving DecidableEq, Repr

/-- One upstream choice. -/
structure Choice where
  message : ChoiceMessage
  finish_reason : Option String
deriving DecidableEq, Repr

/-- Upstream usage object; each count may be absent. -/
structure Usage where
  prompt_tokens : Option Int
  completion_tokens : Option Int
  total_tokens : Option Int
deriving DecidableEq, Repr

/-- The parsed JSON body of a 2xx upstream response. -/
structure Payload where
  choices : List Choice
  usage : Option Usage
deriving DecidableEq, Repr

/-! ## Generation-parameter bag and HTTP wire model -/

/-- A JSON value, used for the open pass-through bag of generation
parameters in the request body. -/
inductive Json where
  | null
  | bool (b : Bool)
  | num (n : Int)
  | str (s : String)
  | arr (xs : List Json)
  | obj (fields : List (String × Json))
deriving Repr

/-- The canonical generation request handed to the adapter. -/
structure GenerateContentParameters where
  model : String
  contents : List ContentEntry
  config : List (String × Json) := []

/-- The outbound HTTP request the adapter builds; the body is kept as the
ordered field list of the JSON object literal before serialization. -/
structure HttpRequest where
  url : String
  method : String
  authorization : String
  contentType : String
  bodyFields : List (String × Json)

/-- The upstream HTTP response as the adapter consumes it: the ok flag,
the status text, and the parsed JSON body. -/
structure HttpResponse where
  ok : Bool
  statusText : String
  body : Payload

/-- The value of a body field under the JavaScript object-literal rule
that a later duplicate key overrides an earlier one. -/
def bodyField (r : HttpRequest) (key : String) : Option Json :=
  r.bodyFields.reverse.lookup key

/-- The model field of a request body when it is a JSON string. -/
def bodyModelString (r : HttpRequest) : Option String :=
  match bodyField r "model" with
  | some (Json.str s) => some s
  | _ => none

/-! ## The adapter client -/

/-- The OpenRouterContentGenerator instance state: the constructor
arguments apiKey and baseUrl. -/
structure OpenRouterContentGenerator where
  apiKey : String
  baseUrl : String

/-- Embedding of the private mapModel method: strip the first occurrence
of the models/ namespace, then return the identifier unchanged on every
base-URL branch. -/
def OpenRouterContentGenerator.mapModel (gen : OpenRouterContentGenerator)
    (model : String) : String :=
  let mappedModel := replaceFirst model "models/"
  if strIncludes gen.baseUrl "api.z.ai" then mappedModel
  else if strIncludes gen.baseUrl "openrouter.ai" then mappedModel
  else mappedModel

/-- Embedding of convertContentsToMessages: one flat message per entry,
role defaulting to user, content the separator-free concatenation of the
text parts (a missing text field becomes the empty string, as the
JavaScript join renders undefined). -/
def convertContentsToMessages (contents : List ContentEntry) : List Message :=
  contents.map (fun content =>
    { role := content.role.getD "user",
      content :=
        match content.parts with
        | none => ""
        | some ps => String.join (ps.map (fun p => p.text.getD "")) })

/-- Embedding of the idiom usage-field OR-ELSE 0 under optional chaining. -/
def usageField (u : Option Usage) (f : Usage → Option Int) : Int :=
  match u with
  | none => 0
  | some usage => (f usage).getD 0

/-- Embedding of the private convertResponse method. Reading choices[0]
of an empty choices array throws in JavaScript, so the embedding returns
none there; otherwise it builds the single canonical candidate and the
defaulted usage metadata. -/
def convertResponse (data : Payload) : Option GenerateContentResponse :=
  match data.choices with
  | [] => none
  | choice :: _ =>
    let finishReason :=
      if choice.finish_reason = some "stop" then FinishReason.STOP
      else FinishReason.OTHER
    some
      { candidates :=
          [ { content :=
                { role := "model",
                  parts := [{ text := some choice.message.content }] },
              finishReason := finishReason,
              index := 0 } ],
        usageMetadata :=
          { promptTokenCount := usageField data.usage Usage.prompt_tokens,
            candidatesTokenCount := usageField data.usage Usage.completion_tokens,
            totalTokenCount := usageField data.usage Usage.total_tokens } }

/-- The JSON encoding of one flat message for the request body. -/
def messageToJson (m : Message) : Json :=
  Json.obj [("role", Json.str m.role), ("content", Json.str m.content)]

/-- The ordered field list of the object literal with model, messages and
the spread generation-parameter bag. -/
def requestBody (model : String) (messages : List Message)
    (cfg : List (String × Json)) : List (String × Json) :=
  [("model", Json.str model), ("messages", Json.arr (messages.map messageToJson))] ++ cfg

/-- Embedding of generateContent: build the mapped model and flat
messages, issue exactly one POST to baseUrl/chat/completions through the
given transport, and either fail with the upstream status text on a
non-ok response or convert the parsed body. The first component of the
result is the log of issued requests. -/
def OpenRouterContentGenerator.generateContent (gen : OpenRouterContentGenerator)
    (transport : HttpRequest → HttpResponse)
    (request : GenerateContentParameters) :
    List HttpRequest × Except String GenerateContentResponse :=
  let model := gen.mapModel request.model
  let messages := convertContentsToMessages request.contents
  let httpRequest : HttpRequest :=
    { url := gen.baseUrl ++ "/chat/completions",
      method := "POST",
      authorization := "Bearer " ++ gen.apiKey,
      contentType := "application/json",
      bodyFields := requestBody model messages request.config }
  let response := transport httpRequest
  let result : Except String GenerateContentResponse :=
    if response.ok = false then
      Except.error ("OpenRouter API error: " ++ response.statusText)
    else
      match convertResponse response.body with
      | some converted => Except.ok converted
      | none => Except.error "TypeError: cannot read choices of the response body"
  ([httpRequest], result)

/-- Embedding of generateContentStream: await the whole non-streaming
request, then hand back a generator yielding that single result, so a
successful stream is the one-element sequence around the completed
response. -/
def OpenRouterContentGenerator.generateContentStream
    (gen : OpenRouterContentGenerator)
    (transport : HttpRequest → HttpResponse)
    (request : GenerateContentParameters) :
    List HttpRequest × Except String (List GenerateContentResponse) :=
  let call := gen.generateContent transport request
  (call.1, call.2.map (fun r => [r]))

/-! ## Token counting (countTokens) -/

/-- Hexadecimal digit character for the JSON control-character escape. -/
def hexDigit (n : Nat) : Char :=
  if n < 10 then Char.ofNat (48 + n) else Char.ofNat (87 + n)

/-- JSON string escaping of one character, as JSON.stringify performs it:
quote, backslash and the named control escapes, a unicode escape for the
remaining control characters, and the character itself otherwise. -/
def escapeChar (c : Char) : String :=
  if c = '"' then "\\\""
  else if c = '\\' then "\\\\"
  else if c = '\n' then "\\n"
  else if c = '\r' then "\\r"
  else if c = '\t' then "\\t"
  else if c = '\x08' then "\\b"
  else if c = '\x0c' then "\\f"
  else if c.toNat < 32 then
    "\\u00" ++ String.singleton (hexDigit (c.toNat / 16)) ++
      String.singleton (hexDigit (c.toNat % 16))
  else String.singleton c

/-- JSON escaping of a character list. -/
def escapeChars : List Char → String
  | [] => ""
  | c :: rest => escapeChar c ++ escapeChars rest

/-- JSON escaping of a string body. -/
def escapeString (s : String) : String :=
  escapeChars s.data

/-- Comma-join of already serialized JSON elements. -/
def joinComma : List String → String
  | [] => ""
  | [x] => x
  | x :: y :: rest => x ++ "," ++ joinComma (y :: rest)

/-- JSON.stringify of one typed part object: properties holding undefined
are omitted, so a part without text serializes as the empty object. -/
def serializeTextPart (p : TextPart) : String :=
  match p.text with
  | none => "\x7b\x7d"
  | some t => "\x7b\"text\":\"" ++ escapeString t ++ "\"\x7d"

/-- JSON.stringify of a parts array. -/
def serializeParts (ps : List TextPart) : String :=
  "[" ++ joinComma (ps.map serializeTextPart) ++ "]"

/-- JSON.stringify of one content entry, with undefined-valued properties
omitted and the insertion order role then parts. -/
def serializeContentEntry (c : ContentEntry) : String :=
  match c.role, c.parts with
  | none, none => "\x7b\x7d"
  | some r, none => "\x7b\"role\":\"" ++ escapeString r ++ "\"\x7d"
  | none, some ps => "\x7b\"parts\":" ++ serializeParts ps ++ "\x7d"
  | some r, some ps =>
    "\x7b\"role\":\"" ++ escapeString r ++ "\",\"parts\":" ++ serializeParts ps ++ "\x7d"

/-- JSON.stringify of the canonical contents array, as countTokens
serializes it. -/
def serializeContents (contents : List ContentEntry) : String :=
  "[" ++ joinComma (contents.map serializeContentEntry) ++ "]"

/-- The request type of countTokens. -/
structure CountTokensParameters where
  model : String
  contents : List ContentEntry

/-- Embedding of countTokens: no upstream endpoint is called; the result
is the ceiling of a quarter of the length of the JSON-serialized
contents, written on naturals as (length + 3) / 4. -/
def OpenRouterContentGenerator.countTokens (_gen : OpenRouterContentGenerator)
    (request : CountTokensParameters) : Nat :=
  let text := serializeContents request.contents
  (text.length + 3) / 4

/-! ## Environment auth detection and the non-interactive validator -/

/-- Embedding of getAuthTypeFromEnv: the fixed priority order of the
environment checks. -/
def getAuthTypeFromEnv (env : Env) : Option AuthType :=
  if env.GOOGLE_GENAI_USE_GCA = some "true" then some AuthType.LOGIN_WITH_GOOGLE
  else if env.GOOGLE_GENAI_USE_VERTEXAI = some "true" then some AuthType.USE_VERTEX_AI
  else if truthyEnv env.OPENROUTER_API_KEY then some AuthType.USE_OPENROUTER
  else if truthyEnv env.GEMINI_API_KEY then some AuthType.USE_GEMINI
  else none

/-- The persisted settings the validator consumes: the enforced auth type
under security.auth.enforcedType and the selected one under
security.auth.selectedType. -/
structure LoadedSettings where
  enforcedType : Option AuthType := none
  selectedType : Option AuthType := none
deriving DecidableEq, Repr

/-- The typed failures of the validator, mirroring the thrown error
messages: the enforced-versus-detected mismatch, the no-usable-auth
configuration failure, and a rejected auth method. -/
inductive AuthError where
  | authMismatch (enforced : AuthType) (current : Option AuthType)
  | configurationError
  | validationError (msg : String)
deriving DecidableEq, Repr

/-- Modelled from the spec: validateAuthMethod lives in the config/auth
module, which is not among the provided sources; per the spec every
member of the closed auth-type enumeration is a supported authentication
method, so validation returns no error for each of them. -/
def validateAuthMethod (_authType : AuthType) : Option String :=
  none

/-- Embedding of validateNonInteractiveAuth: an enforced settings type
that disagrees with the environment-detected one fails with the mismatch
error; otherwise the effective type is enforced, else detected, else the
explicit argument, failing with the configuration error when all are
absent; a detected type differing from the persisted selected one is
written back (returned as the second component); finally the method is
validated unless external auth is requested. -/
def validateNonInteractiveAuth (configuredAuthType : Option AuthType)
    (useExternalAuth : Bool) (settings : LoadedSettings) (env : Env) :
    Except AuthError (AuthType × Option AuthType) :=
  let detectedAuthType := getAuthTypeFromEnv env
  let proceed : Except AuthError (AuthType × Option AuthType) :=
    let effectiveAuthType : Option AuthType :=
      match settings.enforcedType with
      | some t => some t
      | none =>
        match detectedAuthType with
        | some t => some t
        | none => configuredAuthType
    match effectiveAuthType with
    | none => Except.error AuthError.configurationError
    | some authType =>
      let settingsWrite : Option AuthType :=
        if detectedAuthType.isSome = true ∧ settings.selectedType ≠ detectedAuthType
        then detectedAuthType else none
      if useExternalAuth then Except.ok (authType, settingsWrite)
      else
        match validateAuthMethod authType with
        | some err => Except.error (AuthError.validationError err)
        | none => Except.ok (authType, settingsWrite)
  match settings.enforcedType with
  | some enforcedType =>
    if getAuthTypeFromEnv env ≠ some enforcedType then
      Except.error (AuthError.authMismatch enforcedType (getAuthTypeFromEnv env))
    else proceed
  | none => proceed

/-! ## Concrete demonstration values shared by the witnesses -/

/-- An environment holding only the OpenRouter gateway key. -/
def demoEnv : Env :=
  { OPENROUTER_API_KEY := some "sk-or-demo" }

/-- The adapter instance of the OpenRouter scenario: the gateway key and
the defaulted base URL. -/
def demoGen : OpenRouterContentGenerator :=
  { apiKey := "sk-or-demo", baseUrl := "https://openrouter.ai/api/v1" }

/-- The generation request of the scenario: model gemini-2.5-pro and one
user turn saying hi. -/
def c1Request : GenerateContentParameters :=
  { model := "gemini-2.5-pro",
    contents := [{ role := some "user", parts := some [{ text := some "hi" }] }] }

/-- The first upstream choice of the documented translation scenario. -/
def specChoice : Choice :=
  { message := { content := "hello" }, finish_reason := some "stop" }

/-- The upstream payload of the documented translation scenario. -/
def specPayload : Payload :=
  { choices := [specChoice],
    usage := some { prompt_tokens := some 3, completion_tokens := some 2, total_tokens := some 5 } }

/-- The canonical response the scenario payload converts to. -/
def specCanonical : GenerateContentResponse :=
  { candidates :=
      [ { content := { role := "model", parts := [{ text := some "hello" }] },
          finishReason := FinishReason.STOP,
          index := 0 } ],
    usageMetadata :=
      { promptTokenCount := 3, candidatesTokenCount := 2, totalTokenCount := 5 } }

/-- A transport that always answers 200 with the scenario payload. -/
def demoTransport : HttpRequest → HttpResponse :=
  fun _ => { ok := true, statusText := "OK", body := specPayload }

/-- A payload with a first choice but no usage object. -/
def noUsagePayload : Payload :=
  { choices := [specChoice], usage := none }

/-- A simulated upstream 500 response. -/
def response500 : HttpResponse :=
  { ok := false, statusText := "Internal Server Error",
    body := { choices := [], usage := none } }

/-- A payload with two choices, for the discarded-extra-choices witness. -/
def secondChoice : Choice :=
  { message := { content := "ignored" }, finish_reason := some "length" }

/-- The two-choice payload built from specChoice and secondChoice. -/
def twoChoicePayload : Payload :=
  { choices := [specChoice, secondChoice], usage := none }

/-- The 361-character text whose request serialization is exactly 400
characters long. -/
def text361 : String :=
  String.mk (List.replicate 361 'a')

/-- A contents array whose JSON serialization is 400 characters long. -/
def contents400 : List ContentEntry :=
  [{ role := some "user", parts := some [{ text := some text361 }] }]

/-- An environment carrying both the OpenRouter key and the plain Gemini
key, for the detection-priority witness. -/
def demoEnvBothKeys : Env :=
  { OPENROUTER_API_KEY := some "sk-or-demo", GEMINI_API_KEY := some "g-key" }

/-! ## Theorems settling the claims -/

/-- Helper: the default-namespace fallback output is never empty. -/
theorem google_append_ne_empty (model : String) : "google/" ++ model ≠ "" := by
  intro h
  have h2 := congrArg String.length h
  rw [String.length_append] at h2
  have e7 : ("google/" : String).length = 7 := rfl
  have e0 : ("" : String).length = 0 := rfl
  rw [e7, e0] at h2
  omega

/-- Claim C3 (confirmed): the model identifier mapper is total and pure;
every input yields a nonempty output, every entry of the static table
maps exactly as documented, and every input outside the table is
returned with the default google namespace prepended. -/
theorem mapGeminiModelToOpenRouter_total_and_table :
    (∀ model : String, mapGeminiModelToOpenRouter model ≠ "") ∧
    (∀ entry ∈ modelMap, mapGeminiModelToOpenRouter entry.1 = entry.2) ∧
    (∀ model : String, modelMap.lookup model = none →
      mapGeminiModelToOpenRouter model = "google/" ++ model) := by
  refine ⟨?_, by decide, ?_⟩
  · intro model
    unfold mapGeminiModelToOpenRouter
    cases h : modelMap.lookup model with
    | none => exact google_append_ne_empty model
    | some mapped =>
      by_cases hm : mapped = ""
      · simpa [hm] using google_append_ne_empty model
      · simp [hm]
  · intro model h
    unfold mapGeminiModelToOpenRouter
    rw [h]

/-- Witness for claim C3 at the documented table entry and at an unknown
identifier. -/
theorem mapGeminiModelToOpenRouter_witness :
    mapGeminiModelToOpenRouter "gemini-2.5-pro" = "google/gemini-2.5-pro" ∧
    mapGeminiModelToOpenRouter "gpt-4o" ≠ "" ∧
    mapGeminiModelToOpenRouter "gpt-4o" = "google/" ++ "gpt-4o" :=
  ⟨mapGeminiModelToOpenRouter_total_and_table.2.1
      ("gemini-2.5-pro", "google/gemini-2.5-pro") (by decide),
   mapGeminiModelToOpenRouter_total_and_table.1 "gpt-4o",
   mapGeminiModelToOpenRouter_total_and_table.2.2 "gpt-4o" (by decide)⟩

/-- Claim C5 (confirmed): environment auth detection checks the
variables in the fixed priority order Google-hosted-login flag, then
Vertex-AI flag, then OpenRouter key presence, then plain key presence,
returning the mode of the first one set and none when none is set; with
both keys set the OpenRouter mode wins because its check comes first
regardless of the plain key. -/
theorem getAuthTypeFromEnv_priority :
    (∀ env : Env, env.GOOGLE_GENAI_USE_GCA = some "true" →
      getAuthTypeFromEnv env = some AuthType.LOGIN_WITH_GOOGLE) ∧
    (∀ env : Env, env.GOOGLE_GENAI_USE_GCA ≠ some "true" →
      env.GOOGLE_GENAI_USE_VERTEXAI = some "true" →
      getAuthTypeFromEnv env = some AuthType.USE_VERTEX_AI) ∧
    (∀ env : Env, env.GOOGLE_GENAI_USE_GCA ≠ some "true" →
      env.GOOGLE_GENAI_USE_VERTEXAI ≠ some "true" →
      truthyEnv env.OPENROUTER_API_KEY = true →
      getAuthTypeFromEnv env = some AuthType.USE_OPENROUTER) ∧
    (∀ env : Env, env.GOOGLE_GENAI_USE_GCA ≠ some "true" →
      env.GOOGLE_GENAI_USE_VERTEXAI ≠ some "true" →
      truthyEnv env.OPENROUTER_API_KEY = false →
      truthyEnv env.GEMINI_API_KEY = true →
      getAuthTypeFromEnv env = some AuthType.USE_GEMINI) ∧
    (∀ env : Env, env.GOOGLE_GENAI_USE_GCA ≠ some "true" →
      env.GOOGLE_GENAI_USE_VERTEXAI ≠ some "true" →
      truthyEnv env.OPENROUTER_API_KEY = false →
      truthyEnv env.GEMINI_API_KEY = false →
      getAuthTypeFromEnv env = none) := by
  refine ⟨?_, ?_, ?_, ?_, ?_⟩ <;> intro env <;> intros <;>
    simp_all [getAuthTypeFromEnv]

/-- Witness for claim C5: with both the OpenRouter key and the plain key
set, detection selects the OpenRouter mode. -/
theorem getAuthTypeFromEnv_witness :
    getAuthTypeFromEnv demoEnvBothKeys = some AuthType.USE_OPENROUTER :=
  getAuthTypeFromEnv_priority.2.2.1 demoEnvBothKeys (by decide) (by decide) (by decide)

/-- Claim C4 (confirmed): with an enforced auth mode that differs from
the environment-detected one, resolution fails with the mismatch error;
with no enforcement and an environment-detected mode, resolution
succeeds with that mode and reports a persisted-settings write exactly
when the detected mode differs from the stored selected one. -/
theorem validateNonInteractiveAuth_precedence :
    (∀ (cfg : Option AuthType) (ext : Bool) (settings : LoadedSettings) (env : Env)
        (a b : AuthType),
      settings.enforcedType = some a → getAuthTypeFromEnv env = some b → a ≠ b →
      validateNonInteractiveAuth cfg ext settings env =
        Except.error (AuthError.authMismatch a (some b))) ∧
    (∀ (cfg : Option AuthType) (ext : Bool) (settings : LoadedSettings) (env : Env)
        (b : AuthType),
      settings.enforcedType = none → getAuthTypeFromEnv env = some b →
      validateNonInteractiveAuth cfg ext settings env =
        Except.ok (b, if settings.selectedType ≠ some b then some b else none)) := by
  constructor
  · intro cfg ext settings env a b h1 h2 h3
    simp [validateNonInteractiveAuth, h1, h2, Ne.symm h3]
  · intro cfg ext settings env b h1 h2
    simp [validateNonInteractiveAuth, validateAuthMethod, h1, h2]

/-- Witness for claim C4: enforced Gemini mode against a detected
OpenRouter environment fails with the mismatch error, and the same
environment with no enforcement resolves to OpenRouter and writes the
selection back. -/
theorem validateNonInteractiveAuth_witness :
    validateNonInteractiveAuth none false { enforcedType := some AuthType.USE_GEMINI } demoEnv =
      Except.error (AuthError.authMismatch AuthType.USE_GEMINI (some AuthType.USE_OPENROUTER)) ∧
    validateNonInteractiveAuth none false {} demoEnv =
      Except.ok (AuthType.USE_OPENROUTER,
        if (none : Option AuthType) ≠ some AuthType.USE_OPENROUTER
        then some AuthType.USE_OPENROUTER else none) :=
  ⟨validateNonInteractiveAuth_precedence.1 none false
      { enforcedType := some AuthType.USE_GEMINI } demoEnv
      AuthType.USE_GEMINI AuthType.USE_OPENROUTER rfl rfl (by decide),
   validateNonInteractiveAuth_precedence.2 none false {} demoEnv
      AuthType.USE_OPENROUTER rfl rfl⟩

/-- Counterexample to claim C6: with the gateway mode requested and no
gateway key in the environment, configuration assembly does not fail; it
returns the bare configuration, whose apiKey is absent, and likewise for
the direct API key mode without its key. -/
theorem createContentGeneratorConfig_counterexample :
    createContentGeneratorConfig {} none (some AuthType.USE_OPENROUTER) =
      { authType := some AuthType.USE_OPENROUTER } ∧
    (createContentGeneratorConfig {} none (some AuthType.USE_OPENROUTER)).apiKey = none ∧
    (createContentGeneratorConfig {} none (some AuthType.USE_GEMINI)).apiKey = none := by
  decide

/-- Claim C6 (corrected): when the required key variable for the gateway
mode or the direct API key mode is absent, configuration assembly
returns the bare configuration without key material attached instead of
failing; the mode-specific fields are attached exactly when the required
variable is present. -/
theorem createContentGeneratorConfig_amended :
    (∀ (env : Env) (proxy : Option String), envVal env.OPENROUTER_API_KEY = none →
      createContentGeneratorConfig env proxy (some AuthType.USE_OPENROUTER) =
        { authType := some AuthType.USE_OPENROUTER, proxy := proxy }) ∧
    (∀ (env : Env) (proxy : Option String), envVal env.GEMINI_API_KEY = none →
      createContentGeneratorConfig env proxy (some AuthType.USE_GEMINI) =
        { authType := some AuthType.USE_GEMINI, proxy := proxy }) ∧
    (∀ (env : Env) (proxy : Option String) (k : String),
      envVal env.OPENROUTER_API_KEY = some k →
      (createContentGeneratorConfig env proxy (some AuthType.USE_OPENROUTER)).apiKey = some k ∧
      (createContentGeneratorConfig env proxy (some AuthType.USE_OPENROUTER)).baseUrl =
        some ((envVal env.OPENROUTER_BASE_URL).getD "https://openrouter.ai/api/v1")) := by
  refine ⟨?_, ?_, ?_⟩
  · intro env proxy h
    simp [createContentGeneratorConfig, h]
  · intro env proxy h
    simp [createContentGeneratorConfig, h]
  · intro env proxy k h
    constructor <;> simp [createContentGeneratorConfig, h]

/-- Witness for claim C6 as amended: the empty environment yields the
bare gateway configuration, and the demo environment attaches its key. -/
theorem createContentGeneratorConfig_amended_witness :
    createContentGeneratorConfig {} none (some AuthType.USE_OPENROUTER) =
      { authType := some AuthType.USE_OPENROUTER, proxy := none } ∧
    (createContentGeneratorConfig demoEnv none (some AuthType.USE_OPENROUTER)).apiKey =
      some "sk-or-demo" :=
  ⟨createContentGeneratorConfig_amended.1 {} none rfl,
   (createContentGeneratorConfig_amended.2.2 demoEnv none "sk-or-demo" rfl).1⟩

/-- Counterexample to claim C2: on an empty contents array the token
estimate is 1, not 0, because the serialization of the empty array is
the two-character text of an empty JSON array and its quarter rounds up
to one. -/
theorem countTokens_empty_counterexample :
    demoGen.countTokens { model := "gemini-2.5-pro", contents := [] } = 1 ∧
    demoGen.countTokens { model := "gemini-2.5-pro", contents := [] } ≠ 0 := by
  decide

set_option maxRecDepth 4000 in
/-- Claim C2 (corrected): countTokens always returns the rounded-up
quarter of the length of the JSON-serialized contents and never fails;
on the empty contents array this is 1, and on a contents array whose
serialization is 400 characters it is 100. -/
theorem countTokens_estimate_amended :
    (∀ (gen : OpenRouterContentGenerator) (request : CountTokensParameters),
      (serializeContents request.contents).length ≤ 4 * gen.countTokens request ∧
      4 * gen.countTokens request < (serializeContents request.contents).length + 4) ∧
    demoGen.countTokens { model := "gemini-2.5-pro", contents := [] } = 1 ∧
    (serializeContents contents400).length = 400 ∧
    demoGen.countTokens { model := "gemini-2.5-pro", contents := contents400 } = 100 := by
  refine ⟨?_, by decide, by decide, by decide⟩
  intro gen request
  have h : gen.countTokens request =
      ((serializeContents request.contents).length + 3) / 4 := rfl
  rw [h]
  omega

/-- Claim C7 (confirmed): generateContent issues exactly one HTTP
request, and on a non-ok upstream response it fails with an error whose
message carries the HTTP status text, returning no canonical response. -/
theorem generateContent_upstream_error :
    (∀ (gen : OpenRouterContentGenerator) (transport : HttpRequest → HttpResponse)
        (request : GenerateContentParameters),
      ((gen.generateContent transport request).1).length = 1) ∧
    (∀ (gen : OpenRouterContentGenerator) (request : GenerateContentParameters)
        (response : HttpResponse),
      response.ok = false →
      (gen.generateContent (fun _ => response) request).2 =
        Except.error ("OpenRouter API error: " ++ response.statusText)) := by
  constructor
  · intro gen transport request
    rfl
  · intro gen request response h
    simp [OpenRouterContentGenerator.generateContent, h]

/-- Witness for claim C7 at a simulated upstream 500 response. -/
theorem generateContent_upstream_error_witness :
    ((demoGen.generateContent (fun _ => response500) c1Request).1).length = 1 ∧
    (demoGen.generateContent (fun _ => response500) c1Request).2 =
      Except.error ("OpenRouter API error: " ++ response500.statusText) :=
  ⟨generateContent_upstream_error.1 demoGen (fun _ => response500) c1Request,
   generateContent_upstream_error.2 demoGen c1Request response500 rfl⟩

/-- Claim C8 (confirmed): for every upstream payload with a first
choice, a stop finish reason maps to STOP and any other value to OTHER;
an absent usage object, or any absent usage count inside a present one,
defaults to 0; and the documented scenario payload converts to the
canonical response with one model candidate saying hello, finish reason
STOP and usage counts 3, 2 and 5. -/
theorem convertResponse_translation :
    (∀ (data : Payload) (choice : Choice) (rest : List Choice),
      data.choices = choice :: rest →
      (convertResponse data).map (fun r => r.candidates.map Candidate.finishReason) =
        some [if choice.finish_reason = some "stop" then FinishReason.STOP
              else FinishReason.OTHER]) ∧
    (∀ (data : Payload) (choice : Choice) (rest : List Choice),
      data.choices = choice :: rest → data.usage = none →
      (convertResponse data).map GenerateContentResponse.usageMetadata =
        some { promptTokenCount := 0, candidatesTokenCount := 0, totalTokenCount := 0 }) ∧
    (∀ (data : Payload) (choice : Choice) (rest : List Choice) (u : Usage),
      data.choices = choice :: rest → data.usage = some u →
      (u.prompt_tokens = none →
        (convertResponse data).map (fun r => r.usageMetadata.promptTokenCount) = some 0) ∧
      (u.completion_tokens = none →
        (convertResponse data).map (fun r => r.usageMetadata.candidatesTokenCount) = some 0) ∧
      (u.total_tokens = none →
        (convertResponse data).map (fun r => r.usageMetadata.totalTokenCount) = some 0)) ∧
    convertResponse specPayload = some specCanonical := by
  refine ⟨?_, ?_, ?_, rfl⟩
  · intro data choice rest h
    obtain ⟨choices, usage⟩ := data
    simp only at h
    subst h
    simp [convertResponse]
  · intro data choice rest h h2
    obtain ⟨choices, usage⟩ := data
    simp only at h h2
    subst h
    subst h2
    simp [convertResponse, usageField]
  · intro data choice rest u h h2
    obtain ⟨choices, usage⟩ := data
    simp only at h h2
    subst h
    subst h2
    refine ⟨?_, ?_, ?_⟩ <;> intro hu <;> simp [convertResponse, usageField, hu]

/-- Witness for claim C8 at the scenario payload and at a payload
without a usage object. -/
theorem convertResponse_translation_witness :
    (convertResponse specPayload).map (fun r => r.candidates.map Candidate.finishReason) =
      some [if specChoice.finish_reason = some "stop" then FinishReason.STOP
            else FinishReason.OTHER] ∧
    (convertResponse noUsagePayload).map GenerateContentResponse.usageMetadata =
      some { promptTokenCount := 0, candidatesTokenCount := 0, totalTokenCount := 0 } :=
  ⟨convertResponse_translation.1 specPayload specChoice [] rfl,
   convertResponse_translation.2.1 noUsagePayload specChoice [] rfl rfl⟩

/-- Claim C9 (confirmed): generateContentStream performs the single
underlying request and, whenever it succeeds, hands back a fresh finite
sequence of length exactly one whose single element is the completed
response of the whole request. -/
theorem generateContentStream_single_item :
    (∀ (gen : OpenRouterContentGenerator) (transport : HttpRequest → HttpResponse)
        (request : GenerateContentParameters),
      ((gen.generateContentStream transport request).1).length = 1) ∧
    (∀ (gen : OpenRouterContentGenerator) (transport : HttpRequest → HttpResponse)
        (request : GenerateContentParameters) (stream : List GenerateContentResponse),
      (gen.generateContentStream transport request).2 = Except.ok stream →
      stream.length = 1 ∧
      ∃ r, stream = [r] ∧ (gen.generateContent transport request).2 = Except.ok r) := by
  constructor
  · intro gen transport request
    rfl
  · intro gen transport request stream h
    unfold OpenRouterContentGenerator.generateContentStream at h
    dsimp only at h
    cases h2 : (gen.generateContent transport request).2 with
    | ok r =>
      rw [h2] at h
      simp only [Except.map] at h
      cases h
      exact ⟨rfl, r, rfl, rfl⟩
    | error e =>
      rw [h2] at h
      simp only [Except.map] at h
      cases h

/-- Witness for claim C9: the scenario transport yields the one-element
stream around the canonical scenario response. -/
theorem generateContentStream_single_item_witness :
    (demoGen.generateContentStream demoTransport c1Request).2 =
      Except.ok [specCanonical] ∧
    ([specCanonical] : List GenerateContentResponse).length = 1 :=
  ⟨rfl, (generateContentStream_single_item.2 demoGen demoTransport c1Request
      [specCanonical] rfl).1⟩

/-- Claim C10 (confirmed): for every payload with at least one choice
the conversion produces exactly one candidate, with index 0 and content
role model, and the result coincides with the conversion of the payload
truncated to its first choice, so all later choices are silently
discarded. -/
theorem convertResponse_single_candidate :
    ∀ (data : Payload) (choice : Choice) (rest : List Choice),
      data.choices = choice :: rest →
      (convertResponse data).map (fun r => r.candidates.length) = some 1 ∧
      (convertResponse data).map (fun r => r.candidates.map Candidate.index) = some [0] ∧
      (convertResponse data).map (fun r => r.candidates.map (fun c => c.content.role)) =
        some ["model"] ∧
      convertResponse data = convertResponse { choices := [choice], usage := data.usage } := by
  intro data choice rest h
  obtain ⟨choices, usage⟩ := data
  simp only at h
  subst h
  refine ⟨?_, ?_, ?_, ?_⟩ <;> simp [convertResponse]

/-- Witness for claim C10 at a two-choice payload: the second choice
does not influence the conversion. -/
theorem convertResponse_single_candidate_witness :
    (convertResponse twoChoicePayload).map (fun r => r.candidates.length) = some 1 ∧
    (convertResponse twoChoicePayload).map (fun r => r.candidates.map Candidate.index) =
      some [0] ∧
    (convertResponse twoChoicePayload).map
        (fun r => r.candidates.map (fun c => c.content.role)) = some ["model"] ∧
    convertResponse twoChoicePayload =
      convertResponse { choices := [specChoice], usage := twoChoicePayload.usage } :=
  convertResponse_single_candidate twoChoicePayload specChoice [secondChoice] rfl

/-- Counterexample to claim C1: in the OpenRouter scenario the resolved
configuration and selected client are as claimed, but the JSON body of
the issued POST carries the model field gemini-2.5-pro, not the
namespaced google/gemini-2.5-pro the claim states, because mapModel of
the adapter passes identifiers through unchanged on the openrouter.ai
branch. -/
theorem openrouter_scenario_counterexample :
    (createContentGeneratorConfig demoEnv none (some AuthType.USE_OPENROUTER)).baseUrl =
      some "https://openrouter.ai/api/v1" ∧
    createContentGenerator (createContentGeneratorConfig demoEnv none
        (some AuthType.USE_OPENROUTER)) =
      Except.ok (ContentGenerator.openRouter (some "sk-or-demo")
        (some "https://openrouter.ai/api/v1")) ∧
    ((demoGen.generateContent demoTransport c1Request).1).map bodyModelString =
      [some "gemini-2.5-pro"] ∧
    ¬ (((demoGen.generateContent demoTransport c1Request).1).map bodyModelString =
      [some "google/gemini-2.5-pro"]) := by
  refine ⟨rfl, rfl, rfl, ?_⟩
  decide

/-- Claim C1 (corrected): with the gateway key set and no base URL
override, the resolver defaults the base URL to the well-known gateway
host, the factory selects the adapter client, and generateContent with
model gemini-2.5-pro and one user turn saying hi issues exactly one POST
to the chat completions path under that host whose JSON body model field
is gemini-2.5-pro, the identifier passed through unchanged. -/
theorem openrouter_scenario_amended :
    ∀ (key : String) (proxy : Option String) (transport : HttpRequest → HttpResponse),
      key ≠ "" →
      (createContentGeneratorConfig { OPENROUTER_API_KEY := some key } proxy
          (some AuthType.USE_OPENROUTER)).baseUrl = some "https://openrouter.ai/api/v1" ∧
      createContentGenerator (createContentGeneratorConfig { OPENROUTER_API_KEY := some key }
          proxy (some AuthType.USE_OPENROUTER)) =
        Except.ok (ContentGenerator.openRouter (some key)
          (some "https://openrouter.ai/api/v1")) ∧
      (({ apiKey := key, baseUrl := "https://openrouter.ai/api/v1" } :
            OpenRouterContentGenerator).generateContent transport c1Request).1.map
          HttpRequest.url = ["https://openrouter.ai/api/v1/chat/completions"] ∧
      (({ apiKey := key, baseUrl := "https://openrouter.ai/api/v1" } :
            OpenRouterContentGenerator).generateContent transport c1Request).1.map
          HttpRequest.method = ["POST"] ∧
      (({ apiKey := key, baseUrl := "https://openrouter.ai/api/v1" } :
            OpenRouterContentGenerator).generateContent transport c1Request).1.map
          bodyModelString = [some "gemini-2.5-pro"] := by
  intro key proxy transport h
  have hc : createContentGeneratorConfig { OPENROUTER_API_KEY := some key } proxy
      (some AuthType.USE_OPENROUTER) =
      { apiKey := some key, authType := some AuthType.USE_OPENROUTER, proxy := proxy,
        baseUrl := some "https://openrouter.ai/api/v1" } := by
    simp [createContentGeneratorConfig, envVal, h]
  refine ⟨?_, ?_, rfl, rfl, rfl⟩
  · rw [hc]
  · rw [hc]
    rfl

/-- Witness for claim C1 as amended, at the demo key and transport. -/
theorem openrouter_scenario_amended_witness :
    (createContentGeneratorConfig { OPENROUTER_API_KEY := some "sk-or-demo" } none
        (some AuthType.USE_OPENROUTER)).baseUrl = some "https://openrouter.ai/api/v1" ∧
    createContentGenerator (createContentGeneratorConfig
        { OPENROUTER_API_KEY := some "sk-or-demo" } none (some AuthType.USE_OPENROUTER)) =
      Except.ok (ContentGenerator.openRouter (some "sk-or-demo")
        (some "https://openrouter.ai/api/v1")) ∧
    ((demoGen.generateContent demoTransport c1Request).1).map HttpRequest.url =
      ["https://openrouter.ai/api/v1/chat/completions"] ∧
    ((demoGen.generateContent demoTransport c1Request).1).map HttpRequest.method =
      ["POST"] ∧
    ((demoGen.generateContent demoTransport c1Request).1).map bodyModelString =
      [some "gemini-2.5-pro"] :=
  openrouter_scenario_amended "sk-or-demo" none demoTransport (by decide)
